import Mathlib

/-!
Shallow embedding of the doi-checker core, translated from
`src/lib/checker.js`, `src/lib/activitypub.js`, `src/lib/errors.js` and
`src/worker.js`, together with theorems settling the specification claims
about the transition detector, the status merger, the prober, the batch
runner, the alert dispatcher and the cycle orchestrator.
-/

namespace DOIChecker

/-- A JSON value as it appears in a persisted STATUS record. -/
inductive JVal where
  | null : JVal
  | bool : Bool → JVal
  | num : Int → JVal
  | str : String → JVal
deriving DecidableEq, Repr

/-- JavaScript truthiness of a defined JSON value
(`null`, `false`, `0` and the empty string are falsy). -/
def JVal.truthy : JVal → Bool
  | .null => false
  | .bool b => b
  | .num n => n != 0
  | .str s => s != ""

/-- Truthiness of a possibly-absent field (`undefined` is falsy). -/
def oTruthy : Option JVal → Bool
  | none => false
  | some v => v.truthy

/-- Truthiness of a possibly-absent string (for configuration fields such as
`config?.serverUrl`). -/
def strTruthy : Option String → Bool
  | none => false
  | some s => s != ""

/-- A JS object after a round trip through JSON: a key/value list, looked up
by first matching key. -/
abbrev Obj := List (String × JVal)

/-- Read field `k` of an object; `none` models `undefined` (key absent). -/
def objGet (o : Obj) (k : String) : Option JVal :=
  (o.find? (fun p => p.1 == k)).map (fun p => p.2)

/-- Write field `k` of an object. Assigning `none` models assigning
`undefined`, which `JSON.stringify` drops, so the key ends up absent from the
persisted record. -/
def objSet (o : Obj) (k : String) (v : Option JVal) : Obj :=
  let rest := o.filter (fun p => p.1 != k)
  match v with
  | none => rest
  | some v => (k, v) :: rest

/-- JS `a || b` where `a` is a field read (possibly `undefined`) and `b` is a
defined value. -/
def jsOr (a : Option JVal) (b : JVal) : JVal :=
  if oTruthy a then a.getD .null else b

/-- A probe result as produced by `checkSingleDOI`
(`{doi, working, httpStatus, finalUrl, error, timestamp}`). -/
structure ProbeResult where
  doi : String
  working : Bool
  httpStatus : Option Int
  finalUrl : Option String
  error : Option String
  timestamp : String
deriving DecidableEq, Repr

/-- The status update performed for one `ProbeResult` inside `checkAllDOIs`
(src/worker.js lines 196-236): spread the existing record, overwrite
`lastCheck`, `working`, `httpStatus`, `error` from the result, and initialize
the three milestone timestamps only when they are not already (truthily)
present. -/
def mergeObj (existingStatus : Obj) (r : ProbeResult) : Obj :=
  let firstCheckedTimestamp : JVal :=
    jsOr (objGet existingStatus "firstCheckedTimestamp") (.str r.timestamp)
  let fF0 := objGet existingStatus "firstFailureTimestamp"
  let firstFailureTimestamp : Option JVal :=
    if !r.working && !(oTruthy fF0) then some (.str r.timestamp) else fF0
  let fS0 := objGet existingStatus "firstSuccessTimestamp"
  let firstSuccessTimestamp : Option JVal :=
    if r.working && !(oTruthy fS0) then some (.str r.timestamp) else fS0
  objSet (objSet (objSet (objSet (objSet (objSet (objSet existingStatus
    "lastCheck" (some (.str r.timestamp)))
    "working" (some (.bool r.working)))
    "httpStatus" (some (match r.httpStatus with | some s => .num s | none => .null)))
    "error" (some (match r.error with
      | some m => if m == "" then .null else .str m
      | none => .null)))
    "firstCheckedTimestamp" (some firstCheckedTimestamp))
    "firstFailureTimestamp" firstFailureTimestamp)
    "firstSuccessTimestamp" firstSuccessTimestamp

/-- The aggregate returned by `processResults`
(src/lib/checker.js lines 65-84, src/lib/activitypub.js lines 255-293). -/
structure ProcessedResults where
  total : Nat
  working : Nat
  broken : Nat
  newlyBroken : List String
deriving DecidableEq, Repr

/-- The guard `previousStatus?.working` of the transition detector: the prior
record exists and its `working` field is truthy. -/
def prevWorkingTruthy (previousStatuses : String → Option Obj)
    (doi : String) : Bool :=
  match previousStatuses doi with
  | none => false
  | some previousStatus => oTruthy (objGet previousStatus "working")

/-- `processResults` (src/lib/checker.js lines 65-84 and the identical logic
of src/lib/activitypub.js lines 255-293): a DOI is pushed onto `newlyBroken`
iff `previousStatus?.working && !result.working`. -/
def processResults (results : List ProbeResult)
    (previousStatuses : String → Option Obj) : ProcessedResults :=
  { total := results.length
    working := (results.filter (fun r => r.working)).length
    broken := (results.filter (fun r => !r.working)).length
    newlyBroken :=
      (results.filter (fun r =>
        prevWorkingTruthy previousStatuses r.doi && !r.working)).map
          (fun r => r.doi) }

/-- Modelled from the spec (section 4.4): the inclusion condition the spec
states for `detectNewlyBroken`, namely `result.healthy == false` AND
(`prior == null` OR `prior.healthy !== false`). Written from the words of
the spec for comparison with the condition `processResults` implements. -/
def specNewlyBrokenCond (r : ProbeResult) (prior : Option Obj) : Bool :=
  !r.working && (match prior with
    | none => true
    | some p => objGet p "working" != some (.bool false))

/-- One iteration body of the batch loop of `checkMultipleDOIs`
(src/lib/activitypub.js lines 215-237): the prober either returns a result or
throws; a thrown message is caught and converted into an
`Internal error: ...` result stamped with the current time. -/
def batchEntry (prober : String → Except String ProbeResult) (now : String)
    (doi : String) : ProbeResult :=
  match prober doi with
  | .ok result => result
  | .error msg =>
      { doi := doi, working := false, httpStatus := none, finalUrl := none,
        error := some ("Internal error: " ++ msg), timestamp := now }

/-- `checkMultipleDOIs` (src/lib/activitypub.js lines 204-247): run the
prober once per DOI, in list order, catching per-DOI exceptions. -/
def checkMultipleDOIs (prober : String → Except String ProbeResult)
    (now : String) (doiList : List String) : List ProbeResult :=
  doiList.map (batchEntry prober now)

/-- An event observable during one call of the prober: a `sleep(ms)` pause or
a probe attempt numbered by its `retries` counter value. -/
inductive PEvent where
  | sleep (ms : Nat)
  | attempt (n : Nat)
deriving DecidableEq, Repr

def PEvent.isAttempt : PEvent → Bool
  | .attempt _ => true
  | .sleep _ => false

/-- The result `checkSingleDOI` returns once the retry loop has exhausted all
attempts (src/lib/activitypub.js lines 172-183):
`error: lastError?.message || 'Unknown error'`. -/
def exhaustedResult (doi now : String) (lastError : Option String) :
    ProbeResult :=
  { doi := doi, working := false, httpStatus := none, finalUrl := none,
    error := some (match lastError with
      | some m => if m == "" then "Unknown error" else m
      | none => "Unknown error"),
    timestamp := now }

/-- The `while (retries <= checkOptions.maxRetries)` loop of `checkSingleDOI`
(src/lib/activitypub.js lines 120-170). `remaining` is the number of loop
iterations still allowed (`maxRetries + 1 - retries`); `attemptOutcome n`
gives the outcome of the pair of HEAD fetches of the attempt at
`retries = n` (`.ok (status, url)` stands for
`(finalResponse.status, response.url)`, `.error msg` for a thrown network or
timeout error). Each iteration sleeps `retryDelay` first when `retries > 0`,
then attempts; on success it returns the result, on a caught error it records
the message as `lastError` and continues. -/
def checkLoop (attemptOutcome : Nat → Except String (Int × String))
    (retryDelay : Nat) (doi now : String) :
    Nat → Nat → Option String → ProbeResult × List PEvent
  | 0, _, lastError => (exhaustedResult doi now lastError, [])
  | remaining + 1, retries, lastError =>
      let pause : List PEvent := if 0 < retries then [.sleep retryDelay] else []
      match attemptOutcome retries with
      | .ok (status, url) =>
          ({ doi := doi,
             working := decide (200 ≤ status) && decide (status < 400),
             httpStatus := some status, finalUrl := some url, error := none,
             timestamp := now },
           pause ++ [.attempt retries])
      | .error msg =>
          let rest := checkLoop attemptOutcome retryDelay doi now remaining
            (retries + 1) (some msg)
          (rest.1, pause ++ [.attempt retries] ++ rest.2)
  termination_by remaining _ _ => remaining

/-- `checkSingleDOI` of src/lib/activitypub.js (lines 106-196): `parseDOI`
may throw (`parsed = .error msg`), in which case the outer catch returns an
error result with no attempt made; otherwise the retry loop runs with the
counter starting at `retries = 0` and `lastError = null`. The function never
throws: every failure path is a returned `ProbeResult`. -/
def checkSingleDOI (parsed : Except String Unit)
    (attemptOutcome : Nat → Except String (Int × String))
    (maxRetries retryDelay : Nat) (doi now : String) :
    ProbeResult × List PEvent :=
  match parsed with
  | .error msg =>
      ({ doi := doi, working := false, httpStatus := none, finalUrl := none,
         error := some msg, timestamp := now }, [])
  | .ok _ => checkLoop attemptOutcome retryDelay doi now (maxRetries + 1) 0 none

/-- `formatActivityPubMessage` (src/lib/activitypub.js lines 11-13). -/
def formatActivityPubMessage (brokenDOIs : List String) : String :=
  "= DOI Link Check Alert: " ++ toString brokenDOIs.length
    ++ " broken DOI(s) found:\n"
    ++ String.intercalate "\n"
        (brokenDOIs.map (fun doi => "\" https://doi.org/" ++ doi))

/-- A thrown error value, distinguished by its class (src/lib/errors.js):
`externalService` corresponds to `ExternalServiceError` (status 502, code
EXTERNAL_SERVICE_ERROR), `plain` to a bare `Error`. -/
inductive JsErr where
  | plain (msg : String)
  | externalService (msg : String)
deriving DecidableEq, Repr

def JsErr.isExternalService : JsErr → Bool
  | .externalService _ => true
  | .plain _ => false

/-- An HTTP response as seen by the dispatcher. -/
structure HttpResp where
  ok : Bool
  status : Nat
  statusText : String
  body : JVal
deriving DecidableEq, Repr

/-- `postToActivityPub` (src/lib/activitypub.js lines 21-47). The outcome of
the single `fetch` is passed as `fetchOutcome` (`.error` is a thrown network
error). The second component lists the message contents actually POSTed, one
entry per attempt made. On a missing server URL or auth token it throws
before any fetch; a non-ok response turns into a thrown plain `Error`, and a
caught fetch error is logged and rethrown. -/
def postToActivityPub (message : String) (serverUrl authToken : Option String)
    (fetchOutcome : Except String HttpResp) :
    Except JsErr JVal × List String :=
  if !(strTruthy serverUrl) || !(strTruthy authToken) then
    (.error (.plain "ActivityPub server URL and auth token are required"), [])
  else
    match fetchOutcome with
    | .error msg => (.error (.plain msg), [message])
    | .ok response =>
        if !response.ok then
          (.error (.plain ("ActivityPub server responded with "
            ++ toString response.status ++ ": " ++ response.statusText)),
           [message])
        else
          (.ok response.body, [message])

/-- `postBrokenDOIsToActivityPub` (src/lib/activitypub.js lines 55-69):
nothing to post on an empty list; when `config?.enabled === false` the
message is only logged (dry run); otherwise the formatted message is posted
once. -/
def postBrokenDOIsToActivityPub (brokenDOIs : List String) (enabled : Bool)
    (serverUrl authToken : Option String)
    (fetchOutcome : Except String HttpResp) :
    Except JsErr (Option JVal) × List String :=
  if brokenDOIs.isEmpty then (.ok none, [])
  else if enabled == false then (.ok none, [])
  else
    match postToActivityPub (formatActivityPubMessage brokenDOIs)
        serverUrl authToken fetchOutcome with
    | (.ok v, sent) => (.ok (some v), sent)
    | (.error e, sent) => (.error e, sent)

/-- The response `checkAllDOIs` produces: either the early
"No DOIs configured" response (the DOI list key is absent) or the JSON
summary `{checked, newlyBroken, results}`. -/
inductive CycleResponse where
  | noDOIsConfigured
  | summary (checked : Nat) (newlyBroken : Nat) (results : List ProbeResult)
deriving DecidableEq, Repr

/-- The environment of one cycle: the stored DOI list (`none` when the key is
absent), the STATUS store, the prober, the ActivityPub configuration derived
from the environment, the outcome of a POST to the ActivityPub server were
one attempted, and the current time used for internal-error results. -/
structure CycleEnv where
  doiListJson : Option (List String)
  status : String → Option Obj
  prober : String → Except String ProbeResult
  apEnabled : Bool
  apServerUrl : Option String
  apAuthToken : Option String
  apFetch : Except String HttpResp
  now : String

/-- What one cycle produced: its response, the STATUS store after all merges
were written, the list of DOIs handed to the prober, and the message contents
POSTed to the ActivityPub server, one entry per attempt. -/
structure CycleOutput where
  response : CycleResponse
  finalStatus : String → Option Obj
  probed : List String
  alertPosts : List String

/-- `env.STATUS.put(doi, ...)`. -/
def putStatus (st : String → Option Obj) (doi : String) (o : Obj) :
    String → Option Obj :=
  fun d => if d == doi then some o else st d

/-- The `previousStatuses` map `checkAllDOIs` builds before any merge is
written (src/worker.js lines 121-137): one entry per DOI of the list, `null`
when nothing (readable) is stored. -/
def cyclePrev (env : CycleEnv) (doiList : List String) :
    String → Option Obj :=
  fun d => if doiList.contains d then env.status d else none

/-- `checkAllDOIs` (src/worker.js lines 104-271): read the DOI list (absent
key short-circuits), snapshot the prior statuses, run the batch, detect
newly-broken DOIs against the snapshot, merge and persist each result in
order (re-reading the store inside the loop), post to ActivityPub when
`newlyBroken` is non-empty and posting is enabled — catching and logging any
posting error without aborting — and return the summary. -/
def checkAllDOIs (env : CycleEnv) : CycleOutput :=
  match env.doiListJson with
  | none =>
      { response := .noDOIsConfigured, finalStatus := env.status,
        probed := [], alertPosts := [] }
  | some doiList =>
      let previousStatuses := cyclePrev env doiList
      let results := checkMultipleDOIs env.prober env.now doiList
      let processedResults := processResults results previousStatuses
      let newlyBroken := processedResults.newlyBroken
      let finalStatus := results.foldl
        (fun st r => putStatus st r.doi (mergeObj ((st r.doi).getD []) r))
        env.status
      let post :=
        if 0 < newlyBroken.length then
          postBrokenDOIsToActivityPub newlyBroken env.apEnabled
            env.apServerUrl env.apAuthToken env.apFetch
        else (.ok none, [])
      { response := .summary doiList.length newlyBroken.length results
        finalStatus := finalStatus
        probed := doiList
        alertPosts := post.2 }

/-- The event trace of a prober call in which every attempt fails: attempt 0
runs immediately, and every further attempt is preceded by one fixed
`retryDelay` sleep, up to attempt `maxRetries`. -/
def allFailTrace (maxRetries retryDelay : Nat) : List PEvent :=
  ((List.range (maxRetries + 1)).map (fun i =>
    (if 0 < i then [PEvent.sleep retryDelay] else [])
      ++ [PEvent.attempt i])).flatten

/-- A concrete cycle environment whose stored DOI list is the empty array. -/
def envEmptyList : CycleEnv :=
  { doiListJson := some []
    status := fun _ => none
    prober := fun _ => .error "network unavailable"
    apEnabled := true
    apServerUrl := some "https://ap.example"
    apAuthToken := some "token"
    apFetch := .error "network unavailable"
    now := "t0" }

/-- A concrete cycle environment with one monitored DOI whose prior record
says `working: true`, whose probe now fails, and whose alert endpoint answers
HTTP 500. -/
def envAlertFail : CycleEnv :=
  { doiListJson := some ["10.1000/x"]
    status := fun d =>
      if d == "10.1000/x"
        then some [("working", .bool true), ("lastCheck", .str "t1")]
        else none
    prober := fun d =>
      .ok { doi := d, working := false, httpStatus := some 404,
            finalUrl := none, error := none, timestamp := "t2" }
    apEnabled := true
    apServerUrl := some "https://ap.example"
    apAuthToken := some "token"
    apFetch := .ok { ok := false, status := 500,
                     statusText := "Internal Server Error", body := .null }
    now := "t2" }

/-- A concrete run of three probe results for one identifier: failure at t1,
success at t2, failure again at t3. -/
def milestoneRuns : List ProbeResult :=
  [{ doi := "10.1000/x", working := false, httpStatus := some 404,
     finalUrl := none, error := some "HTTP 404", timestamp := "t1" },
   { doi := "10.1000/x", working := true, httpStatus := some 200,
     finalUrl := some "https://x", error := none, timestamp := "t2" },
   { doi := "10.1000/x", working := false, httpStatus := some 500,
     finalUrl := none, error := some "HTTP 500", timestamp := "t3" }]

theorem objGet_objSet_same (o : Obj) (k : String) (v : Option JVal) :
    objGet (objSet o k v) k = v := by
  have hrest : ∀ (l : Obj),
      (l.filter (fun p => p.1 != k)).find? (fun p => p.1 == k) = none := by
    intro l
    induction l with
    | nil => rfl
    | cons p t ih =>
      by_cases hp : p.1 = k
      · simp [List.filter, hp, ih]
      · simp only [List.filter]
        have : (p.1 != k) = true := by simp [bne, hp]
        rw [this]
        simp only [List.find?]
        have : (p.1 == k) = false := by simp [hp]
        rw [this, ih]
  cases v with
  | none => simp [objGet, objSet, hrest]
  | some w => simp [objGet, objSet, List.find?]

theorem objGet_objSet_ne (o : Obj) (k q : String) (v : Option JVal)
    (h : q ≠ k) : objGet (objSet o k v) q = objGet o q := by
  have hfind : ∀ (l : Obj),
      (l.filter (fun p => p.1 != k)).find? (fun p => p.1 == q)
        = l.find? (fun p => p.1 == q) := by
    intro l
    induction l with
    | nil => rfl
    | cons p t ih =>
      by_cases hp : p.1 = k
      · have h1 : (p.1 != k) = false := by simp [bne, hp]
        have h2 : (p.1 == q) = false := by
          simp [hp]
          exact fun hq => h hq.symm
        simp only [List.filter, h1, List.find?, h2, ih]
      · have h1 : (p.1 != k) = true := by simp [bne, hp]
        by_cases hq : p.1 = q
        · have h2 : (p.1 == q) = true := by simp [hq]
          simp only [List.filter, h1, List.find?, h2]
        · have h2 : (p.1 == q) = false := by simp [hq]
          simp only [List.filter, h1, List.find?, h2, ih]
  cases v with
  | none => simp [objGet, objSet, hfind]
  | some w =>
    simp only [objGet, objSet, List.find?]
    have : (k == q) = false := by
      simp
      exact fun hq => h hq.symm
    rw [this, hfind]

theorem objGet_mergeObj_firstChecked (s : Obj) (r : ProbeResult) :
    objGet (mergeObj s r) "firstCheckedTimestamp"
      = some (jsOr (objGet s "firstCheckedTimestamp") (.str r.timestamp)) := by
  unfold mergeObj
  rw [objGet_objSet_ne _ _ _ _ (by decide), objGet_objSet_ne _ _ _ _ (by decide),
    objGet_objSet_same]

theorem objGet_mergeObj_firstFailure (s : Obj) (r : ProbeResult) :
    objGet (mergeObj s r) "firstFailureTimestamp"
      = (if !r.working && !(oTruthy (objGet s "firstFailureTimestamp"))
          then some (.str r.timestamp)
          else objGet s "firstFailureTimestamp") := by
  unfold mergeObj
  rw [objGet_objSet_ne _ _ _ _ (by decide), objGet_objSet_same]

theorem objGet_mergeObj_firstSuccess (s : Obj) (r : ProbeResult) :
    objGet (mergeObj s r) "firstSuccessTimestamp"
      = (if r.working && !(oTruthy (objGet s "firstSuccessTimestamp"))
          then some (.str r.timestamp)
          else objGet s "firstSuccessTimestamp") := by
  unfold mergeObj
  rw [objGet_objSet_same]

theorem objGet_mergeObj_working (s : Obj) (r : ProbeResult) :
    objGet (mergeObj s r) "working" = some (.bool r.working) := by
  unfold mergeObj
  rw [objGet_objSet_ne _ _ _ _ (by decide), objGet_objSet_ne _ _ _ _ (by decide),
    objGet_objSet_ne _ _ _ _ (by decide), objGet_objSet_ne _ _ _ _ (by decide),
    objGet_objSet_ne _ _ _ _ (by decide), objGet_objSet_same]

theorem objGet_mergeObj_httpStatus (s : Obj) (r : ProbeResult) :
    objGet (mergeObj s r) "httpStatus"
      = some (match r.httpStatus with | some v => .num v | none => .null) := by
  unfold mergeObj
  rw [objGet_objSet_ne _ _ _ _ (by decide), objGet_objSet_ne _ _ _ _ (by decide),
    objGet_objSet_ne _ _ _ _ (by decide), objGet_objSet_ne _ _ _ _ (by decide),
    objGet_objSet_same]

theorem objGet_mergeObj_error (s : Obj) (r : ProbeResult) :
    objGet (mergeObj s r) "error"
      = some (match r.error with
          | some m => if m == "" then JVal.null else .str m
          | none => .null) := by
  unfold mergeObj
  rw [objGet_objSet_ne _ _ _ _ (by decide), objGet_objSet_ne _ _ _ _ (by decide),
    objGet_objSet_ne _ _ _ _ (by decide), objGet_objSet_same]

theorem objGet_mergeObj_lastCheck (s : Obj) (r : ProbeResult) :
    objGet (mergeObj s r) "lastCheck" = some (.str r.timestamp) := by
  unfold mergeObj
  rw [objGet_objSet_ne _ _ _ _ (by decide), objGet_objSet_ne _ _ _ _ (by decide),
    objGet_objSet_ne _ _ _ _ (by decide), objGet_objSet_ne _ _ _ _ (by decide),
    objGet_objSet_ne _ _ _ _ (by decide), objGet_objSet_ne _ _ _ _ (by decide),
    objGet_objSet_same]

theorem objGet_mergeObj_other (s : Obj) (r : ProbeResult) (k : String)
    (h1 : k ≠ "lastCheck") (h2 : k ≠ "working") (h3 : k ≠ "httpStatus")
    (h4 : k ≠ "error") (h5 : k ≠ "firstCheckedTimestamp")
    (h6 : k ≠ "firstFailureTimestamp") (h7 : k ≠ "firstSuccessTimestamp") :
    objGet (mergeObj s r) k = objGet s k := by
  unfold mergeObj
  rw [objGet_objSet_ne _ _ _ _ h7, objGet_objSet_ne _ _ _ _ h6,
    objGet_objSet_ne _ _ _ _ h5, objGet_objSet_ne _ _ _ _ h4,
    objGet_objSet_ne _ _ _ _ h3, objGet_objSet_ne _ _ _ _ h2,
    objGet_objSet_ne _ _ _ _ h1]

theorem jsOr_idem (a : Option JVal) (b : JVal) :
    jsOr (some (jsOr a b)) b = jsOr a b := by
  unfold jsOr
  cases a with
  | none =>
    simp only [oTruthy]
    by_cases hb : b.truthy <;> simp [hb]
  | some v =>
    by_cases hv : v.truthy
    · simp [oTruthy, hv]
    · simp only [oTruthy, hv]
      by_cases hb : b.truthy <;> simp [hb]

/-- C1 (counterexample): an identifier with no prior record whose probe
fails this cycle satisfies the inclusion condition the claim states
(`healthy == false` and `prior == null`), yet `processResults` leaves
`newlyBroken` empty, so the claimed iff fails at this input. -/
theorem processResults_unknown_to_broken_counterexample :
    specNewlyBrokenCond
        { doi := "10.1000/x", working := false, httpStatus := some 404,
          finalUrl := none, error := none, timestamp := "t1" } none = true
    ∧ (processResults
        [{ doi := "10.1000/x", working := false, httpStatus := some 404,
           finalUrl := none, error := none, timestamp := "t1" }]
        (fun _ => none)).newlyBroken = [] := by
  exact ⟨rfl, rfl⟩

/-- C1 (amended): `processResults` includes an identifier in `newlyBroken`
iff some result for it has `working = false` and its prior record exists with
a truthy `working` field: only the working-to-broken transition counts, so an
identifier with no prior record (unknown) whose probe fails is NOT counted as
newly broken, and neither is broken-to-broken. -/
theorem processResults_newlyBroken_iff (results : List ProbeResult)
    (previousStatuses : String → Option Obj) (d : String) :
    d ∈ (processResults results previousStatuses).newlyBroken
      ↔ ∃ r ∈ results, r.doi = d ∧ r.working = false
          ∧ prevWorkingTruthy previousStatuses d = true := by
  unfold processResults
  simp only [List.mem_map, List.mem_filter, Bool.and_eq_true, Bool.not_eq_true']
  constructor
  · rintro ⟨r, ⟨⟨hmem, hprev, hw⟩, hdoi⟩⟩
    subst hdoi
    exact ⟨r, hmem, rfl, hw, hprev⟩
  · rintro ⟨r, hmem, hdoi, hw, hprev⟩
    subst hdoi
    exact ⟨r, ⟨⟨hmem, hprev, hw⟩, rfl⟩⟩

/-- C8: re-merging an identical probe result against the record produced by
merging it leaves every field other than `lastCheck` unchanged (`working`,
`httpStatus`, `error`, the three milestone timestamps, and any unrecognized
field alike). -/
theorem mergeObj_remerge_identical (s : Obj) (r : ProbeResult) (k : String)
    (hk : k ≠ "lastCheck") :
    objGet (mergeObj (mergeObj s r) r) k = objGet (mergeObj s r) k := by
  by_cases h2 : k = "working"
  · subst h2; rw [objGet_mergeObj_working, objGet_mergeObj_working]
  by_cases h3 : k = "httpStatus"
  · subst h3; rw [objGet_mergeObj_httpStatus, objGet_mergeObj_httpStatus]
  by_cases h4 : k = "error"
  · subst h4; rw [objGet_mergeObj_error, objGet_mergeObj_error]
  by_cases h5 : k = "firstCheckedTimestamp"
  · subst h5
    rw [objGet_mergeObj_firstChecked, objGet_mergeObj_firstChecked, jsOr_idem]
  by_cases h6 : k = "firstFailureTimestamp"
  · subst h6
    rw [objGet_mergeObj_firstFailure, objGet_mergeObj_firstFailure]
    cases hw : r.working with
    | true => simp [hw]
    | false =>
      by_cases hf : oTruthy (objGet s "firstFailureTimestamp")
      · simp [hf]
      · simp [hf]
  by_cases h7 : k = "firstSuccessTimestamp"
  · subst h7
    rw [objGet_mergeObj_firstSuccess, objGet_mergeObj_firstSuccess]
    cases hw : r.working with
    | false => simp [hw]
    | true =>
      by_cases hf : oTruthy (objGet s "firstSuccessTimestamp")
      · simp [hf]
      · simp [hf]
  rw [objGet_mergeObj_other _ _ _ hk h2 h3 h4 h5 h6 h7,
    objGet_mergeObj_other _ _ _ hk h2 h3 h4 h5 h6 h7]

/-- C8 (witness): re-merging a concrete failing result against its own merge
output leaves `firstFailureTimestamp` unchanged. -/
theorem mergeObj_remerge_identical_witness :
    objGet (mergeObj (mergeObj [("note", JVal.str "keep")]
        { doi := "10.1000/x", working := false, httpStatus := some 404,
          finalUrl := none, error := some "HTTP 404", timestamp := "t1" })
        { doi := "10.1000/x", working := false, httpStatus := some 404,
          finalUrl := none, error := some "HTTP 404", timestamp := "t1" })
        "firstFailureTimestamp"
      = objGet (mergeObj [("note", JVal.str "keep")]
        { doi := "10.1000/x", working := false, httpStatus := some 404,
          finalUrl := none, error := some "HTTP 404", timestamp := "t1" })
        "firstFailureTimestamp" :=
  mergeObj_remerge_identical _ _ _ (by decide)

/-- C10: every field of the previously persisted record other than
`lastCheck`, `working`, `httpStatus`, `error` and the three milestone
timestamps is carried over unchanged by the status merge (unrecognized extra
fields survive, via the object spread). -/
theorem mergeObj_preserves_unrecognized_fields (s : Obj) (r : ProbeResult)
    (k : String)
    (h1 : k ≠ "lastCheck") (h2 : k ≠ "working") (h3 : k ≠ "httpStatus")
    (h4 : k ≠ "error") (h5 : k ≠ "firstCheckedTimestamp")
    (h6 : k ≠ "firstFailureTimestamp") (h7 : k ≠ "firstSuccessTimestamp") :
    objGet (mergeObj s r) k = objGet s k :=
  objGet_mergeObj_other s r k h1 h2 h3 h4 h5 h6 h7

/-- C10 (witness): a concrete unrecognized field survives a concrete
merge. -/
theorem mergeObj_preserves_unrecognized_fields_witness :
    objGet (mergeObj [("customNote", JVal.str "hello"), ("working", .bool true)]
        { doi := "10.1000/x", working := false, httpStatus := some 404,
          finalUrl := none, error := none, timestamp := "t2" })
        "customNote"
      = objGet [("customNote", JVal.str "hello"), ("working", .bool true)]
        "customNote" :=
  mergeObj_preserves_unrecognized_fields _ _ _ (by decide) (by decide)
    (by decide) (by decide) (by decide) (by decide) (by decide)

set_option maxRecDepth 8192 in
/-- C3: the dispatcher performs no truncation. At the failing input of the
repository's own unit test (20 broken DOIs, maximum message length 50) the
message built by `formatActivityPubMessage` is far longer than 50 characters
and `postBrokenDOIsToActivityPub` POSTs exactly that untruncated message. -/
theorem formatActivityPubMessage_no_truncation :
    50 < (formatActivityPubMessage
        (List.replicate 20 "10.1000/xyz123")).length
    ∧ (postBrokenDOIsToActivityPub (List.replicate 20 "10.1000/xyz123") true
        (some "https://ap.example") (some "token")
        (.ok { ok := true, status := 200, statusText := "OK",
               body := .null })).2
      = [formatActivityPubMessage (List.replicate 20 "10.1000/xyz123")] := by
  exact ⟨by decide, rfl⟩

/-- C5: at the failing input (valid configuration, endpoint answering HTTP
500), `postToActivityPub` makes exactly one POST attempt — it has no retry
loop — and surfaces a plain `Error`, not an `ExternalServiceError`. -/
theorem postToActivityPub_single_generic_failure :
    postToActivityPub "m" (some "https://ap.example") (some "token")
        (.ok { ok := false, status := 500,
               statusText := "Internal Server Error", body := .null })
      = (.error (.plain
          "ActivityPub server responded with 500: Internal Server Error"),
         ["m"])
    ∧ JsErr.isExternalService (.plain
        "ActivityPub server responded with 500: Internal Server Error")
      = false := by
  exact ⟨rfl, rfl⟩

/-- C6 (counterexample): when the prober throws `"boom"`, the batch runner
stores the error string `Internal error: boom` — with a capital I — not the
`internal error: boom` string the claim quotes, so the claim as stated fails
at this input. -/
theorem checkMultipleDOIs_error_string_counterexample :
    (checkMultipleDOIs (fun _ => .error "boom") "t0" ["10.1000/x"]).map
        (fun r => r.error) = [some ("Internal error: " ++ "boom")]
    ∧ (("Internal error: " ++ "boom") == ("internal error: " ++ "boom"))
      = false := by
  exact ⟨rfl, by decide⟩

/-- C6 (amended): the batch runner returns exactly one `ProbeResult` per
input identifier, in input order; a prober exception for the i-th identifier
is caught and replaced by a result with `working = false` and the error
string `Internal error: <message>` (capital I), and every other position
still carries its own prober result. -/
theorem checkMultipleDOIs_isolates_failures
    (prober : String → Except String ProbeResult) (now : String)
    (doiList : List String) (i : Nat) (doi : String)
    (hdoi : doiList[i]? = some doi) :
    (checkMultipleDOIs prober now doiList).length = doiList.length
    ∧ (∀ msg, prober doi = .error msg →
        (checkMultipleDOIs prober now doiList)[i]?
          = some { doi := doi, working := false, httpStatus := none,
                   finalUrl := none,
                   error := some ("Internal error: " ++ msg),
                   timestamp := now })
    ∧ (∀ r, prober doi = .ok r →
        (checkMultipleDOIs prober now doiList)[i]? = some r) := by
  unfold checkMultipleDOIs
  refine ⟨List.length_map _ _, ?_, ?_⟩
  · intro msg hmsg
    rw [List.getElem?_map, hdoi]
    simp [batchEntry, hmsg]
  · intro r hr
    rw [List.getElem?_map, hdoi]
    simp [batchEntry, hr]

/-- C6 (witness): in a concrete two-element batch whose second probe throws,
the output has length two, position 0 keeps the successful result and
position 1 carries the converted internal-error result. -/
theorem checkMultipleDOIs_isolates_failures_witness :
    (checkMultipleDOIs
        (fun d => if d == "10.1000/good"
          then .ok { doi := d, working := true, httpStatus := some 200,
                     finalUrl := some "https://x", error := none,
                     timestamp := "t0" }
          else .error "boom") "t0"
        ["10.1000/good", "10.1000/bad"]).length = 2
    ∧ (checkMultipleDOIs
        (fun d => if d == "10.1000/good"
          then .ok { doi := d, working := true, httpStatus := some 200,
                     finalUrl := some "https://x", error := none,
                     timestamp := "t0" }
          else .error "boom") "t0"
        ["10.1000/good", "10.1000/bad"])[1]?
      = some { doi := "10.1000/bad", working := false, httpStatus := none,
               finalUrl := none, error := some ("Internal error: " ++ "boom"),
               timestamp := "t0" } :=
  ⟨(checkMultipleDOIs_isolates_failures _ "t0"
      ["10.1000/good", "10.1000/bad"] 1 "10.1000/bad" rfl).1,
   (checkMultipleDOIs_isolates_failures _ "t0"
      ["10.1000/good", "10.1000/bad"] 1 "10.1000/bad" rfl).2.1
     "boom" rfl⟩

/-- C9: when the stored DOI list is the empty array, the cycle returns the
summary `{checked: 0, newlyBroken: 0, results: []}`, hands no DOI to the
prober and POSTs nothing to the alert endpoint. -/
theorem checkAllDOIs_empty_list (env : CycleEnv)
    (h : env.doiListJson = some []) :
    (checkAllDOIs env).response = .summary 0 0 []
    ∧ (checkAllDOIs env).probed = []
    ∧ (checkAllDOIs env).alertPosts = [] := by
  obtain ⟨dlj, st, pr, en, url, tok, fetch, nw⟩ := env
  dsimp only at h
  subst h
  exact ⟨rfl, rfl, rfl⟩

/-- C9 (witness): the empty-list cycle at a concrete environment. -/
theorem checkAllDOIs_empty_list_witness :
    (checkAllDOIs envEmptyList).response = .summary 0 0 []
    ∧ (checkAllDOIs envEmptyList).probed = []
    ∧ (checkAllDOIs envEmptyList).alertPosts = [] :=
  checkAllDOIs_empty_list envEmptyList rfl

/-- C7: when something is newly broken and the alert endpoint rejects the
(single) POST attempt with a non-2xx response, the cycle orchestrator
catches the dispatch failure and still returns the successful summary, whose
newly-broken count is positive; the failing POST was really attempted. -/
theorem checkAllDOIs_survives_alert_failure
    (env : CycleEnv) (doiList : List String)
    (hlist : env.doiListJson = some doiList)
    (hnb : 0 < (processResults (checkMultipleDOIs env.prober env.now doiList)
        (cyclePrev env doiList)).newlyBroken.length)
    (response : HttpResp) (hfetch : env.apFetch = .ok response)
    (hko : response.ok = false)
    (hen : env.apEnabled = true)
    (hurl : strTruthy env.apServerUrl = true)
    (htok : strTruthy env.apAuthToken = true) :
    (checkAllDOIs env).response
      = .summary doiList.length
          (processResults (checkMultipleDOIs env.prober env.now doiList)
            (cyclePrev env doiList)).newlyBroken.length
          (checkMultipleDOIs env.prober env.now doiList)
    ∧ (checkAllDOIs env).alertPosts
      = [formatActivityPubMessage
          (processResults (checkMultipleDOIs env.prober env.now doiList)
            (cyclePrev env doiList)).newlyBroken] := by
  obtain ⟨dlj, st, pr, en, url, tok, fetch, nw⟩ := env
  dsimp only at hlist hfetch hen hurl htok hnb ⊢
  subst hlist
  subst hfetch
  subst hen
  unfold checkAllDOIs
  dsimp only
  refine ⟨rfl, ?_⟩
  rw [if_pos hnb]
  rcases hl : (processResults (checkMultipleDOIs pr nw doiList)
      (cyclePrev ⟨some doiList, st, pr, true, url, tok, .ok response, nw⟩
        doiList)).newlyBroken with _ | ⟨a, l⟩
  · rw [hl] at hnb
    exact absurd hnb (by simp)
  · simp [postBrokenDOIsToActivityPub, postToActivityPub, hurl, htok, hko]

/-- C7 (witness): the concrete environment `envAlertFail` (one DOI that was
working, now broken; the alert endpoint answering 500) yields the summary
with one newly broken DOI and one attempted POST. -/
theorem checkAllDOIs_survives_alert_failure_witness :
    (checkAllDOIs envAlertFail).response
      = .summary (["10.1000/x"] : List String).length
          (processResults
            (checkMultipleDOIs envAlertFail.prober envAlertFail.now
              ["10.1000/x"])
            (cyclePrev envAlertFail ["10.1000/x"])).newlyBroken.length
          (checkMultipleDOIs envAlertFail.prober envAlertFail.now
            ["10.1000/x"])
    ∧ (checkAllDOIs envAlertFail).alertPosts
      = [formatActivityPubMessage
          (processResults
            (checkMultipleDOIs envAlertFail.prober envAlertFail.now
              ["10.1000/x"])
            (cyclePrev envAlertFail ["10.1000/x"])).newlyBroken] :=
  checkAllDOIs_survives_alert_failure envAlertFail ["10.1000/x"] rfl
    (by decide)
    { ok := false, status := 500, statusText := "Internal Server Error",
      body := .null }
    rfl rfl rfl rfl rfl

theorem jsOr_of_truthy (a : Option JVal) (b : JVal)
    (h : oTruthy a = true) : some (jsOr a b) = a := by
  cases a with
  | none => simp [oTruthy] at h
  | some v =>
    simp only [oTruthy] at h
    simp [jsOr, oTruthy, h]

theorem foldl_merge_firstChecked_truthy (rs : List ProbeResult) (s : Obj)
    (h : oTruthy (objGet s "firstCheckedTimestamp") = true) :
    objGet (rs.foldl mergeObj s) "firstCheckedTimestamp"
      = objGet s "firstCheckedTimestamp" := by
  induction rs generalizing s with
  | nil => rfl
  | cons r rs ih =>
    have hstep : objGet (mergeObj s r) "firstCheckedTimestamp"
        = objGet s "firstCheckedTimestamp" := by
      rw [objGet_mergeObj_firstChecked, jsOr_of_truthy _ _ h]
    rw [List.foldl_cons, ih (mergeObj s r) (by rw [hstep]; exact h), hstep]

theorem foldl_merge_firstFailure_truthy (rs : List ProbeResult) (s : Obj)
    (h : oTruthy (objGet s "firstFailureTimestamp") = true) :
    objGet (rs.foldl mergeObj s) "firstFailureTimestamp"
      = objGet s "firstFailureTimestamp" := by
  induction rs generalizing s with
  | nil => rfl
  | cons r rs ih =>
    have hstep : objGet (mergeObj s r) "firstFailureTimestamp"
        = objGet s "firstFailureTimestamp" := by
      rw [objGet_mergeObj_firstFailure, h]
      simp
    rw [List.foldl_cons, ih (mergeObj s r) (by rw [hstep]; exact h), hstep]

theorem foldl_merge_firstSuccess_truthy (rs : List ProbeResult) (s : Obj)
    (h : oTruthy (objGet s "firstSuccessTimestamp") = true) :
    objGet (rs.foldl mergeObj s) "firstSuccessTimestamp"
      = objGet s "firstSuccessTimestamp" := by
  induction rs generalizing s with
  | nil => rfl
  | cons r rs ih =>
    have hstep : objGet (mergeObj s r) "firstSuccessTimestamp"
        = objGet s "firstSuccessTimestamp" := by
      rw [objGet_mergeObj_firstSuccess, h]
      simp
    rw [List.foldl_cons, ih (mergeObj s r) (by rw [hstep]; exact h), hstep]

theorem truthy_str_of_ne (ts : String) (h : ts ≠ "") :
    JVal.truthy (.str ts) = true := by
  simp [JVal.truthy, h]

theorem foldl_merge_firstChecked_char (rs : List ProbeResult) (s : Obj)
    (hts : ∀ r ∈ rs, r.timestamp ≠ "")
    (hs : oTruthy (objGet s "firstCheckedTimestamp") = false) :
    objGet (rs.foldl mergeObj s) "firstCheckedTimestamp"
      = ((rs.head?).map (fun r => JVal.str r.timestamp)).or
          (objGet s "firstCheckedTimestamp") := by
  cases rs with
  | nil =>
    rw [List.foldl_nil]
    cases objGet s "firstCheckedTimestamp" <;> rfl
  | cons r rs =>
    have hset : objGet (mergeObj s r) "firstCheckedTimestamp"
        = some (.str r.timestamp) := by
      rw [objGet_mergeObj_firstChecked]
      unfold jsOr
      rw [hs]
      simp
    have htr : oTruthy (objGet (mergeObj s r) "firstCheckedTimestamp")
        = true := by
      rw [hset]
      simpa [oTruthy] using
        truthy_str_of_ne r.timestamp (hts r (List.mem_cons_self r rs))
    rw [List.foldl_cons, foldl_merge_firstChecked_truthy rs _ htr, hset]
    rfl

theorem foldl_merge_firstFailure_char (rs : List ProbeResult) (s : Obj)
    (hts : ∀ r ∈ rs, r.timestamp ≠ "")
    (hs : oTruthy (objGet s "firstFailureTimestamp") = false) :
    objGet (rs.foldl mergeObj s) "firstFailureTimestamp"
      = ((rs.find? (fun r => !r.working)).map
          (fun r => JVal.str r.timestamp)).or
          (objGet s "firstFailureTimestamp") := by
  induction rs generalizing s with
  | nil =>
    rw [List.foldl_nil]
    cases objGet s "firstFailureTimestamp" <;> rfl
  | cons r rs ih =>
    rw [List.foldl_cons]
    cases hw : r.working with
    | false =>
      have hset : objGet (mergeObj s r) "firstFailureTimestamp"
          = some (.str r.timestamp) := by
        rw [objGet_mergeObj_firstFailure, hw, hs]
        simp
      have htr : oTruthy (objGet (mergeObj s r) "firstFailureTimestamp")
          = true := by
        rw [hset]
        simpa [oTruthy] using
          truthy_str_of_ne r.timestamp (hts r (List.mem_cons_self r rs))
      have hfind : (r :: rs).find? (fun r => !r.working) = some r := by
        simp [List.find?, hw]
      rw [foldl_merge_firstFailure_truthy rs _ htr, hset, hfind]
      rfl
    | true =>
      have hkeep : objGet (mergeObj s r) "firstFailureTimestamp"
          = objGet s "firstFailureTimestamp" := by
        rw [objGet_mergeObj_firstFailure, hw]
        simp
      have hs2 : oTruthy (objGet (mergeObj s r) "firstFailureTimestamp")
          = false := by
        rw [hkeep]
        exact hs
      have hfind : (r :: rs).find? (fun r => !r.working)
          = rs.find? (fun r => !r.working) := by
        simp [List.find?, hw]
      rw [ih (mergeObj s r) (fun q hq => hts q (List.mem_cons_of_mem r hq))
        hs2, hkeep, hfind]

theorem foldl_merge_firstSuccess_char (rs : List ProbeResult) (s : Obj)
    (hts : ∀ r ∈ rs, r.timestamp ≠ "")
    (hs : oTruthy (objGet s "firstSuccessTimestamp") = false) :
    objGet (rs.foldl mergeObj s) "firstSuccessTimestamp"
      = ((rs.find? (fun r => r.working)).map
          (fun r => JVal.str r.timestamp)).or
          (objGet s "firstSuccessTimestamp") := by
  induction rs generalizing s with
  | nil =>
    rw [List.foldl_nil]
    cases objGet s "firstSuccessTimestamp" <;> rfl
  | cons r rs ih =>
    rw [List.foldl_cons]
    cases hw : r.working with
    | true =>
      have hset : objGet (mergeObj s r) "firstSuccessTimestamp"
          = some (.str r.timestamp) := by
        rw [objGet_mergeObj_firstSuccess, hw, hs]
        simp
      have htr : oTruthy (objGet (mergeObj s r) "firstSuccessTimestamp")
          = true := by
        rw [hset]
        simpa [oTruthy] using
          truthy_str_of_ne r.timestamp (hts r (List.mem_cons_self r rs))
      have hfind : (r :: rs).find? (fun r => r.working) = some r := by
        simp [List.find?, hw]
      rw [foldl_merge_firstSuccess_truthy rs _ htr, hset, hfind]
      rfl
    | false =>
      have hkeep : objGet (mergeObj s r) "firstSuccessTimestamp"
          = objGet s "firstSuccessTimestamp" := by
        rw [objGet_mergeObj_firstSuccess, hw]
        simp
      have hs2 : oTruthy (objGet (mergeObj s r) "firstSuccessTimestamp")
          = false := by
        rw [hkeep]
        exact hs
      have hfind : (r :: rs).find? (fun r => r.working)
          = rs.find? (fun r => r.working) := by
        simp [List.find?, hw]
      rw [ih (mergeObj s r) (fun q hq => hts q (List.mem_cons_of_mem r hq))
        hs2, hkeep, hfind]

/-- C2: over any sequence of merges for one identifier that starts from the
fresh record and whose probe timestamps are non-empty strings, each milestone
timestamp equals the timestamp of the first qualifying merge of the prefix —
`firstCheckedTimestamp` that of the first merge, `firstFailureTimestamp`
that of the first merge with `working = false`, `firstSuccessTimestamp` that
of the first merge with `working = true`, and `none` while no qualifying
merge has happened — and once any of the three holds a value, every later
prefix still holds exactly that value. -/
theorem merge_milestones_set_once (rs : List ProbeResult)
    (h : ∀ r ∈ rs, r.timestamp ≠ "") (n m : Nat) (hnm : n ≤ m) :
    (objGet ((rs.take n).foldl mergeObj []) "firstCheckedTimestamp"
        = ((rs.take n).head?).map (fun r => JVal.str r.timestamp))
    ∧ (objGet ((rs.take n).foldl mergeObj []) "firstFailureTimestamp"
        = ((rs.take n).find? (fun r => !r.working)).map
            (fun r => JVal.str r.timestamp))
    ∧ (objGet ((rs.take n).foldl mergeObj []) "firstSuccessTimestamp"
        = ((rs.take n).find? (fun r => r.working)).map
            (fun r => JVal.str r.timestamp))
    ∧ (∀ v, objGet ((rs.take n).foldl mergeObj []) "firstCheckedTimestamp"
          = some v
        → objGet ((rs.take m).foldl mergeObj []) "firstCheckedTimestamp"
          = some v)
    ∧ (∀ v, objGet ((rs.take n).foldl mergeObj []) "firstFailureTimestamp"
          = some v
        → objGet ((rs.take m).foldl mergeObj []) "firstFailureTimestamp"
          = some v)
    ∧ (∀ v, objGet ((rs.take n).foldl mergeObj []) "firstSuccessTimestamp"
          = some v
        → objGet ((rs.take m).foldl mergeObj []) "firstSuccessTimestamp"
          = some v) := by
  have hts : ∀ r ∈ rs.take n, r.timestamp ≠ "" :=
    fun r hr => h r (List.take_subset n rs hr)
  have hsplit : rs.take m = rs.take n ++ (rs.drop n).take (m - n) := by
    rw [← List.take_add, Nat.add_sub_cancel' hnm]
  have h1 : objGet ((rs.take n).foldl mergeObj []) "firstCheckedTimestamp"
      = ((rs.take n).head?).map (fun r => JVal.str r.timestamp) := by
    rw [foldl_merge_firstChecked_char (rs.take n) [] hts rfl]
    cases rs.take n <;> rfl
  have h2 : objGet ((rs.take n).foldl mergeObj []) "firstFailureTimestamp"
      = ((rs.take n).find? (fun r => !r.working)).map
          (fun r => JVal.str r.timestamp) := by
    rw [foldl_merge_firstFailure_char (rs.take n) [] hts rfl]
    cases (rs.take n).find? (fun r => !r.working) <;> rfl
  have h3 : objGet ((rs.take n).foldl mergeObj []) "firstSuccessTimestamp"
      = ((rs.take n).find? (fun r => r.working)).map
          (fun r => JVal.str r.timestamp) := by
    rw [foldl_merge_firstSuccess_char (rs.take n) [] hts rfl]
    cases (rs.take n).find? (fun r => r.working) <;> rfl
  refine ⟨h1, h2, h3, ?_, ?_, ?_⟩
  · intro v hv
    have hvt : oTruthy (some v) = true := by
      rw [h1] at hv
      cases hx : rs.take n with
      | nil => rw [hx] at hv; simp at hv
      | cons a t =>
        rw [hx] at hv
        simp only [List.head?, Option.map] at hv
        have hva : JVal.str a.timestamp = v := Option.some.inj hv
        rw [← hva]
        simpa [oTruthy] using truthy_str_of_ne a.timestamp
          (hts a (by rw [hx]; exact List.mem_cons_self a t))
    rw [hsplit, List.foldl_append,
      foldl_merge_firstChecked_truthy _ _ (by rw [hv]; exact hvt), hv]
  · intro v hv
    have hvt : oTruthy (some v) = true := by
      rw [h2] at hv
      cases hx : (rs.take n).find? (fun r => !r.working) with
      | none => rw [hx] at hv; simp at hv
      | some a =>
        rw [hx] at hv
        simp only [Option.map] at hv
        have hva : JVal.str a.timestamp = v := Option.some.inj hv
        rw [← hva]
        simpa [oTruthy] using truthy_str_of_ne a.timestamp
          (hts a (List.mem_of_find?_eq_some hx))
    rw [hsplit, List.foldl_append,
      foldl_merge_firstFailure_truthy _ _ (by rw [hv]; exact hvt), hv]
  · intro v hv
    have hvt : oTruthy (some v) = true := by
      rw [h3] at hv
      cases hx : (rs.take n).find? (fun r => r.working) with
      | none => rw [hx] at hv; simp at hv
      | some a =>
        rw [hx] at hv
        simp only [Option.map] at hv
        have hva : JVal.str a.timestamp = v := Option.some.inj hv
        rw [← hva]
        simpa [oTruthy] using truthy_str_of_ne a.timestamp
          (hts a (List.mem_of_find?_eq_some hx))
    rw [hsplit, List.foldl_append,
      foldl_merge_firstSuccess_truthy _ _ (by rw [hv]; exact hvt), hv]

/-- C2 (witness): over the concrete run fail(t1), success(t2), fail(t3), the
milestones after two merges are t1/t1/t2, and after the third (failing) merge
each of the three keeps exactly its value — in particular the second failure
does not move `firstFailureTimestamp` off t1. -/
theorem merge_milestones_set_once_witness :
    objGet ((milestoneRuns.take 2).foldl mergeObj []) "firstCheckedTimestamp"
        = some (.str "t1")
    ∧ objGet ((milestoneRuns.take 2).foldl mergeObj [])
        "firstFailureTimestamp" = some (.str "t1")
    ∧ objGet ((milestoneRuns.take 2).foldl mergeObj [])
        "firstSuccessTimestamp" = some (.str "t2")
    ∧ objGet ((milestoneRuns.take 3).foldl mergeObj [])
        "firstCheckedTimestamp" = some (.str "t1")
    ∧ objGet ((milestoneRuns.take 3).foldl mergeObj [])
        "firstFailureTimestamp" = some (.str "t1")
    ∧ objGet ((milestoneRuns.take 3).foldl mergeObj [])
        "firstSuccessTimestamp" = some (.str "t2") :=
  ⟨((merge_milestones_set_once milestoneRuns (by decide) 2 3
      (by decide)).1).trans (by rfl),
   ((merge_milestones_set_once milestoneRuns (by decide) 2 3
      (by decide)).2.1).trans (by rfl),
   ((merge_milestones_set_once milestoneRuns (by decide) 2 3
      (by decide)).2.2.1).trans (by rfl),
   (merge_milestones_set_once milestoneRuns (by decide) 2 3
      (by decide)).2.2.2.1 (.str "t1") (by rfl),
   (merge_milestones_set_once milestoneRuns (by decide) 2 3
      (by decide)).2.2.2.2.1 (.str "t1") (by rfl),
   (merge_milestones_set_once milestoneRuns (by decide) 2 3
      (by decide)).2.2.2.2.2 (.str "t2") (by rfl)⟩

theorem filter_length_join {α : Type} (p : α → Bool) (L : List (List α)) :
    ((L.flatten).filter p).length
      = (L.map (fun l => (l.filter p).length)).sum := by
  induction L with
  | nil => rfl
  | cons a t ih =>
    simp [List.filter_append, ih]
    rfl

theorem sum_map_one {α : Type} (l : List α) :
    (l.map (fun _ => (1 : Nat))).sum = l.length := by
  induction l with
  | nil => rfl
  | cons a t ih => simp [ih, Nat.add_comm]

theorem checkLoop_step_error
    (attemptOutcome : Nat → Except String (Int × String))
    (retryDelay : Nat) (doi now : String)
    (remaining retries : Nat) (lastError : Option String) (msg : String)
    (h : attemptOutcome retries = .error msg) :
    checkLoop attemptOutcome retryDelay doi now (remaining + 1) retries
        lastError
      = ((checkLoop attemptOutcome retryDelay doi now remaining (retries + 1)
            (some msg)).1,
         ((if 0 < retries then [PEvent.sleep retryDelay] else [])
             ++ [PEvent.attempt retries])
           ++ (checkLoop attemptOutcome retryDelay doi now remaining
                (retries + 1) (some msg)).2) := by
  simp only [checkLoop, h]

theorem checkLoop_allFail
    (attemptOutcome : Nat → Except String (Int × String))
    (msgs : Nat → String)
    (hfail : ∀ k, attemptOutcome k = .error (msgs k))
    (retryDelay : Nat) (doi now : String) :
    ∀ (remaining retries : Nat) (lastError : Option String),
      checkLoop attemptOutcome retryDelay doi now (remaining + 1) retries
          lastError
        = (exhaustedResult doi now (some (msgs (retries + remaining))),
           ((List.range (remaining + 1)).map (fun j =>
             (if 0 < retries + j then [PEvent.sleep retryDelay] else [])
               ++ [PEvent.attempt (retries + j)])).flatten) := by
  intro remaining
  induction remaining with
  | zero =>
    intro retries lastError
    rw [checkLoop_step_error attemptOutcome retryDelay doi now 0 retries
      lastError (msgs retries) (hfail retries)]
    simp only [checkLoop]
    simp [List.range_succ]
  | succ rem ih =>
    intro retries lastError
    rw [checkLoop_step_error attemptOutcome retryDelay doi now (rem + 1)
      retries lastError (msgs retries) (hfail retries)]
    rw [ih (retries + 1) (some (msgs retries))]
    have harith : retries + 1 + rem = retries + (rem + 1) := by omega
    rw [harith]
    refine Prod.ext rfl ?_
    conv_rhs => rw [List.range_succ_eq_map, List.map_cons,
      List.flatten_cons, List.map_map]
    have hchunks : ((List.range (rem + 1)).map
          ((fun j => (if 0 < retries + j then [PEvent.sleep retryDelay]
              else []) ++ [PEvent.attempt (retries + j)]) ∘ Nat.succ))
        = ((List.range (rem + 1)).map (fun j =>
            (if 0 < retries + 1 + j then [PEvent.sleep retryDelay] else [])
              ++ [PEvent.attempt (retries + 1 + j)])) := by
      refine List.map_congr_left ?_
      intro j _
      have h1 : retries + Nat.succ j = retries + 1 + j := by omega
      simp only [Function.comp_apply, h1]
    rw [hchunks]
    simp [List.append_assoc]

/-- C4: when `parseDOI` succeeds and every probe attempt fails with a
network or timeout error, `checkSingleDOI` makes exactly `maxRetries + 1`
attempts — attempt 0 immediately and each retry after one fixed `retryDelay`
pause — and then returns, without throwing, a result with `working = false`,
`httpStatus = null` and `error` equal to the message of the last failed
attempt. -/
theorem checkSingleDOI_all_attempts_fail
    (attemptOutcome : Nat → Except String (Int × String))
    (msgs : Nat → String)
    (hfail : ∀ k, attemptOutcome k = .error (msgs k))
    (maxRetries retryDelay : Nat) (doi now : String)
    (hmsg : msgs maxRetries ≠ "") :
    checkSingleDOI (.ok ()) attemptOutcome maxRetries retryDelay doi now
      = ({ doi := doi, working := false, httpStatus := none, finalUrl := none,
           error := some (msgs maxRetries), timestamp := now },
         allFailTrace maxRetries retryDelay)
    ∧ ((allFailTrace maxRetries retryDelay).filter PEvent.isAttempt).length
        = maxRetries + 1 := by
  constructor
  · unfold checkSingleDOI
    rw [checkLoop_allFail attemptOutcome msgs hfail retryDelay doi now
      maxRetries 0 none]
    have h0 : (0 : Nat) + maxRetries = maxRetries := Nat.zero_add _
    rw [h0]
    refine Prod.ext ?_ ?_
    · unfold exhaustedResult
      have hb : (msgs maxRetries == "") = false := by
        simp [hmsg]
      simp [hb]
    · unfold allFailTrace
      simp
  · unfold allFailTrace
    rw [filter_length_join, List.map_map]
    have hone : ((List.range (maxRetries + 1)).map
          ((fun l => (l.filter PEvent.isAttempt).length) ∘ (fun i =>
            (if 0 < i then [PEvent.sleep retryDelay] else [])
              ++ [PEvent.attempt i])))
        = (List.range (maxRetries + 1)).map (fun _ => (1 : Nat)) := by
      refine List.map_congr_left ?_
      intro i _
      by_cases hi : 0 < i <;>
        simp [hi, PEvent.isAttempt, List.filter_append]
    rw [hone, sum_map_one, List.length_range]

/-- C4 (witness): with `maxRetries = 2` and every attempt failing with
`network timeout`, the prober makes three attempts with a sleep before each
retry and returns the failure result. -/
theorem checkSingleDOI_all_attempts_fail_witness :
    checkSingleDOI (.ok ()) (fun _ => .error "network timeout") 2 1000
        "10.1000/x" "t0"
      = ({ doi := "10.1000/x", working := false, httpStatus := none,
           finalUrl := none, error := some "network timeout",
           timestamp := "t0" },
         allFailTrace 2 1000)
    ∧ ((allFailTrace 2 1000).filter PEvent.isAttempt).length = 2 + 1 :=
  ⟨(checkSingleDOI_all_attempts_fail (fun _ => .error "network timeout")
      (fun _ => "network timeout") (fun _ => rfl) 2 1000 "10.1000/x" "t0"
      (by decide)).1,
   (checkSingleDOI_all_attempts_fail (fun _ => .error "network timeout")
      (fun _ => "network timeout") (fun _ => rfl) 2 1000 "10.1000/x" "t0"
      (by decide)).2⟩

end DOIChecker
